import Mathlib

/-!
Shallow embedding of the two orchestration scripts of the
network-automation-framework repository:

* `src/scripts/napalm_backup.py`  — backup pipeline (NAPALM)
* `src/scripts/netmiko_config.py` — config-push pipeline (Netmiko)

The external device-automation capability (NAPALM driver object /
Netmiko `ConnectHandler`) is modelled as a record of call outcomes: each
capability call either returns a value or raises, carrying the Python
exception's string (`str(e)`).  File writes are modelled by recording the
path of every file the function writes, in write order.  Logging and
console output are not modelled except where a claim mentions them.
Timestamps (`datetime.now().strftime('%Y%m%d_%H%M%S')`) are injected as a
parameter: the source computes the timestamp exactly once per device, so
one string parameter per device run is the faithful model.
-/

namespace NetAuto

/-- Decidable equality for `Except`, needed so session behaviors and
outcomes can be compared by `decide` in concrete evaluations. -/
def exceptDecEq {ε α : Type} [DecidableEq ε] [DecidableEq α] :
    DecidableEq (Except ε α)
  | .error a, .error b => decidable_of_iff (a = b) (by simp)
  | .error _, .ok _ => isFalse (by simp)
  | .ok _, .error _ => isFalse (by simp)
  | .ok a, .ok b => decidable_of_iff (a = b) (by simp)

instance {ε α : Type} [DecidableEq ε] [DecidableEq α] :
    DecidableEq (Except ε α) := exceptDecEq

/-- A device record from the YAML inventory (`config/devices.yml`).
Mirrors the dict fields the scripts read: `host`, `username`, `password`,
optional `device_type`, optional `secret`.  A field the dict may lack is
an `Option`. -/
structure Device where
  host : String
  username : String
  password : String
  device_type : Option String
  secret : Option String
  deriving Repr, DecidableEq

/-- The dict returned by NAPALM `get_config()`: a `running` text, and a
`startup` entry that may be absent (`none`) or present but falsy
(`some ""`).  `napalm_backup.py` line 112 tests
`'startup' in config and config['startup']`. -/
structure ConfigDict where
  running : String
  startup : Option String
  deriving Repr, DecidableEq

/-- Outcomes of the session-capability calls that `backup_device_config`
makes on the NAPALM connection object, in the order the source calls
them.  `.error e` models the call raising an exception with `str(e) = e`.
The field for `open()` is named `openCall` because `open` is a Lean
keyword.  Facts and interfaces are modelled as association lists, which
is all `json.dump` needs. -/
structure SessionBehavior where
  openCall : Except String Unit
  get_facts : Except String (List (String × String))
  get_config : Except String ConfigDict
  get_interfaces : Except String (List (String × String))
  close : Except String Unit
  deriving Repr, DecidableEq

/-- The result dict `backup_device_config` returns: `status` is
`"success"` or `"failed"`; the success-only fields are `Option`/lists,
the failure-only `error` is an `Option`.  `files` holds the paths of the
success dict's `files` entry (running-config, facts, interfaces — the
source does not put the startup file in this dict). -/
structure BResult where
  status : String
  hostname : String
  backup_dir : Option String
  timestamp : Option String
  files : List String
  error : Option String
  deriving Repr, DecidableEq

/-- The failed-result dict of `napalm_backup.py` lines 150–154. -/
def failedResult (hostname error : String) : BResult :=
  { status := "failed", hostname := hostname, backup_dir := none,
    timestamp := none, files := [], error := some error }

/-- Observable outcome of one `backup_device_config` call: the returned
result dict, the paths of the files written (in write order), whether
`open()` was called and succeeded, and whether `close()` was ever
called. -/
structure BackupOutcome where
  result : BResult
  written : List String
  opened : Bool
  closeCalled : Bool
  deriving Repr, DecidableEq

/-- The static Netmiko-tag → NAPALM-driver map of `napalm_backup.py`
lines 63–71. -/
def driver_map : List (String × String) :=
  [("cisco_ios", "ios"), ("cisco_xe", "ios"), ("cisco_nxos", "nxos"),
   ("cisco_xr", "iosxr"), ("arista_eos", "eos"), ("juniper", "junos"),
   ("juniper_junos", "junos")]

/-- Driver resolution of `napalm_backup.py` lines 59 and 73:
`device.get('device_type', 'cisco_ios')` then
`driver_map.get(device_type, 'ios')`. -/
def resolveDriver (device_type : Option String) : String :=
  (driver_map.lookup (device_type.getD "cisco_ios")).getD "ios"

/-- The connection arguments built at `napalm_backup.py` lines 82–87:
`secret` is `device.get('secret', device['password'])`. -/
structure ConnArgs where
  hostname : String
  username : String
  password : String
  secret : String
  deriving Repr, DecidableEq

/-- Embeds `napalm_backup.py` lines 82–87 (the `driver(...)` keyword
arguments). -/
def mkConnArgs (device : Device) : ConnArgs :=
  { hostname := device.host, username := device.username,
    password := device.password,
    secret := device.secret.getD device.password }

/-- Embeds `backup_device_config` (`napalm_backup.py` lines 49–154).
The whole body after driver resolution sits in one `try`; any raising
capability call jumps to the `except` clause, which returns the failed
dict.  There is no `finally`, so `close()` is reached only by falling
through every earlier call.  File writes (lines 105–129) are modelled as
recording the path; `now` is the timestamp computed at line 99. -/
def backup_device_config (device : Device) (sess : SessionBehavior)
    (now : String) : BackupOutcome :=
  let hostname := device.host
  let _napalm_driver := resolveDriver device.device_type
  let _conn := mkConnArgs device
  match sess.openCall with
  | .error e =>
      { result := failedResult hostname e, written := [],
        opened := false, closeCalled := false }
  | .ok _ =>
  match sess.get_facts with
  | .error e =>
      { result := failedResult hostname e, written := [],
        opened := true, closeCalled := false }
  | .ok _facts =>
  match sess.get_config with
  | .error e =>
      { result := failedResult hostname e, written := [],
        opened := true, closeCalled := false }
  | .ok config =>
      let timestamp := now
      let device_backup_dir := "backups/" ++ hostname
      let running_config_file :=
        device_backup_dir ++ "/" ++ hostname ++ "_running_" ++ timestamp ++ ".cfg"
      let startup_files :=
        match config.startup with
        | some s =>
            if s ≠ "" then
              [device_backup_dir ++ "/" ++ hostname ++ "_startup_" ++ timestamp ++ ".cfg"]
            else []
        | none => []
      let facts_file :=
        device_backup_dir ++ "/" ++ hostname ++ "_facts_" ++ timestamp ++ ".json"
      let writtenSoFar := running_config_file :: startup_files ++ [facts_file]
      match sess.get_interfaces with
      | .error e =>
          { result := failedResult hostname e, written := writtenSoFar,
            opened := true, closeCalled := false }
      | .ok _interfaces =>
          let interfaces_file :=
            device_backup_dir ++ "/" ++ hostname ++ "_interfaces_" ++ timestamp ++ ".json"
          let writtenAll := writtenSoFar ++ [interfaces_file]
          match sess.close with
          | .error e =>
              { result := failedResult hostname e, written := writtenAll,
                opened := true, closeCalled := true }
          | .ok _ =>
              { result :=
                  { status := "success", hostname := hostname,
                    backup_dir := some device_backup_dir,
                    timestamp := some timestamp,
                    files := [running_config_file, facts_file, interfaces_file],
                    error := none },
                written := writtenAll, opened := true, closeCalled := true }

/-- The per-device loop of `napalm_backup.py` `main` (lines 206–213):
one `backup_device_config` call per inventory device, results appended
in inventory order.  `sess` gives each device's session behavior and
`clock` the timestamp its run computes at line 99. -/
def runBackupPipeline (devices : List Device)
    (sess : Device → SessionBehavior) (clock : Device → String) :
    List BResult :=
  devices.map (fun d => (backup_device_config d (sess d) (clock d)).result)

/-- The exit-code computation of `napalm_backup.py` `main`
(lines 220–221 and 242): `success_count` counts results with status
`'success'`, `failed_count` is the rest, and the return value is
`0 if failed_count == 0 else 1`. -/
def summaryExitCode (results : List BResult) : Nat :=
  let success_count := (results.filter (fun r => r.status == "success")).length
  let failed_count := results.length - success_count
  if failed_count == 0 then 0 else 1

/-- The filename `f` contains the timestamp token `t`. -/
def hasTimestamp (t f : String) : Prop := ∃ a b, f = a ++ t ++ b

/-!
Embedding of `src/scripts/netmiko_config.py`.

Python's `str.strip()`, `str.lower()` and `str.startswith()` are
modelled by the structurally recursive functions below (Lean's own
`String.trim`/`String.toLower`/`String.startsWith` are equivalent on
these inputs but do not reduce in the kernel).  `Char.isWhitespace`
covers the ASCII whitespace that appears in configuration files (space,
tab, CR, LF; Python's `strip()` additionally strips `\v`/`\f`, which no
claim exercises).
-/

/-- Python `str.strip()`: drop leading and trailing whitespace. -/
def pyStrip (s : String) : String :=
  ⟨((s.data.dropWhile Char.isWhitespace).reverse.dropWhile
      Char.isWhitespace).reverse⟩

/-- Python `str.lower()` (ASCII case folding, which is all the
confirmation gate sees). -/
def pyLower (s : String) : String :=
  ⟨s.data.map Char.toLower⟩

/-- Python `s.startswith(p)`. -/
def pyStartsWith (s p : String) : Bool :=
  p.data.isPrefixOf s.data

/-- Outcomes of the Netmiko calls the config-push script makes.
`connect` models `ConnectHandler(**device)` raising or succeeding; the
command-taking calls are functions of their argument.  The session log
in outcomes records each `send_config_set` argument list, so "exactly
one call with exactly these commands" is observable. -/
structure NetmikoSession where
  connect : Except String Unit
  enable : Except String Unit
  send_config_set : List String → Except String String
  save_config : Except String String
  send_command : String → Except String String
  disconnect : Except String Unit

/-- Embeds `load_configuration` (`netmiko_config.py` lines 48–65).
`fileLines` is `some` of the file's lines (without trailing newline,
which Python's `strip()` removes anyway) or `none` for
`FileNotFoundError`, which the source turns into `[]`.  The
comprehension `[line.strip() for line in f if line.strip() and not
line.startswith('#')]` keeps a line when its stripped form is non-empty
and the raw line does not start with `'#'`, and yields the *stripped*
form. -/
def load_configuration (fileLines : Option (List String)) : List String :=
  match fileLines with
  | none => []
  | some lines =>
      (lines.filter
        (fun line => !(pyStrip line == "") && !(pyStartsWith line "#"))).map
        pyStrip

/-- The dict `configure_device` returns, plus the observable session
trace: every `send_config_set` argument list (in call order) and whether
`disconnect()` was called. -/
structure ConfigOutcome where
  status : String
  output : Option String
  save_output : Option String
  error : Option String
  configSetCalls : List (List String)
  disconnected : Bool

/-- Embeds `configure_device` (`netmiko_config.py` lines 67–108).  One
`try` wraps connect, `enable()`, one `send_config_set(commands)` call,
`save_config()` and `disconnect()`; any raise jumps to `except`, which
returns the failed dict.  `send_config_set` is called exactly once, and
only after connect and enable succeed. -/
def configure_device (_device : Device) (sess : NetmikoSession)
    (commands : List String) : ConfigOutcome :=
  match sess.connect with
  | .error e =>
      { status := "failed", output := none, save_output := none,
        error := some e, configSetCalls := [], disconnected := false }
  | .ok _ =>
  match sess.enable with
  | .error e =>
      { status := "failed", output := none, save_output := none,
        error := some e, configSetCalls := [], disconnected := false }
  | .ok _ =>
  match sess.send_config_set commands with
  | .error e =>
      { status := "failed", output := none, save_output := none,
        error := some e, configSetCalls := [commands], disconnected := false }
  | .ok output =>
  match sess.save_config with
  | .error e =>
      { status := "failed", output := none, save_output := none,
        error := some e, configSetCalls := [commands], disconnected := false }
  | .ok save_output =>
  match sess.disconnect with
  | .error e =>
      { status := "failed", output := none, save_output := none,
        error := some e, configSetCalls := [commands], disconnected := true }
  | .ok _ =>
      { status := "success", output := some output,
        save_output := some save_output, error := none,
        configSetCalls := [commands], disconnected := true }

/-- Outcome of `backup_configuration`: the returned value (`some path`
or `None`), the files written, and whether the single `except` clause
logged an error. -/
structure BackupCfgOutcome where
  ret : Option String
  written : List String
  errorLogged : Bool

/-- Embeds `backup_configuration` (`netmiko_config.py` lines 110–145):
connect, `enable()`, `send_command('show running-config')`, write the
timestamped backup file, `disconnect()`, return the path; any raise is
caught, logged (line 144), and turned into `None`. -/
def backup_configuration (device : Device) (sess : NetmikoSession)
    (now : String) : BackupCfgOutcome :=
  match sess.connect with
  | .error _ => { ret := none, written := [], errorLogged := true }
  | .ok _ =>
  match sess.enable with
  | .error _ => { ret := none, written := [], errorLogged := true }
  | .ok _ =>
  match sess.send_command "show running-config" with
  | .error _ => { ret := none, written := [], errorLogged := true }
  | .ok _config =>
      let backup_file := "backups/" ++ device.host ++ "_" ++ now ++ ".cfg"
      match sess.disconnect with
      | .error _ =>
          { ret := none, written := [backup_file], errorLogged := true }
      | .ok _ =>
          { ret := some backup_file, written := [backup_file],
            errorLogged := false }

/-- The per-device result dict `main` builds (lines 188–191): the
`configure_device` dict plus `device` and `backup` keys. -/
structure PushResult where
  status : String
  output : Option String
  save_output : Option String
  error : Option String
  device : String
  backup : Option String

/-- Observable outcome of one iteration of the config-push device loop
(`netmiko_config.py` lines 179–191): the assembled result, the
`send_config_set` trace of the push session, and the number of
`ConnectHandler(**device)` constructions attempted (one in
`backup_configuration`, one in `configure_device`). -/
structure DeviceRunOutcome where
  result : PushResult
  configSetCalls : List (List String)
  sessionsOpened : Nat

/-- One iteration of the device loop of `netmiko_config.py` `main`
(lines 179–191): take the pre-change backup, then apply the
configuration unconditionally, then record `device` and `backup` on the
result. -/
def processDevice (device : Device) (bsess csess : NetmikoSession)
    (commands : List String) (now : String) : DeviceRunOutcome :=
  let b := backup_configuration device bsess now
  let c := configure_device device csess commands
  { result :=
      { status := c.status, output := c.output, save_output := c.save_output,
        error := c.error, device := device.host, backup := b.ret },
    configSetCalls := c.configSetCalls,
    sessionsOpened := 2 }

/-- Observable outcome of a whole config-push run. -/
structure PushRunOutcome where
  results : List PushResult
  sessionsOpened : Nat

/-- Embeds `main` of `netmiko_config.py` (lines 147–211) from the point
its inputs are read: `cfgLines` is the configuration file's content (or
`none` when absent) and `confirm` the operator's confirmation string.
If no commands load the run aborts (lines 165–167); if
`confirm.lower() != 'yes'` the run is cancelled (lines 173–175);
otherwise every device is processed in inventory order.  An aborted run
builds no results and opens no sessions. -/
def netmikoMain (devices : List Device) (cfgLines : Option (List String))
    (confirm : String) (bsess csess : Device → NetmikoSession)
    (clock : Device → String) : PushRunOutcome :=
  let commands := load_configuration cfgLines
  if commands.isEmpty then
    { results := [], sessionsOpened := 0 }
  else if pyLower confirm ≠ "yes" then
    { results := [], sessionsOpened := 0 }
  else
    let outs := devices.map
      (fun d => processDevice d (bsess d) (csess d) commands (clock d))
    { results := outs.map (fun o => o.result),
      sessionsOpened := (outs.map (fun o => o.sessionsOpened)).sum }

/-- The spec's description of the command list, modelled from its words
for comparison with `load_configuration`: "lines that are empty or begin
with `#` are ignored; remaining lines are passed verbatim and in order"
— i.e. the kept lines unchanged, character for character. -/
def specVerbatimCommands (lines : List String) : List String :=
  lines.filter (fun line => !(pyStrip line == "") && !(pyStartsWith line "#"))

/-- The session-capability call that raised did so before
`backup_device_config` writes any file: the first raising call is
`open()`, `get_facts()` or `get_config()` (the first artifact write at
line 106 happens only after all three returned). -/
def raisesBeforeWrite (sess : SessionBehavior) (e : String) : Prop :=
  sess.openCall = .error e ∨
  (sess.openCall = .ok () ∧ sess.get_facts = .error e) ∨
  (sess.openCall = .ok () ∧ (∃ facts, sess.get_facts = .ok facts) ∧
    sess.get_config = .error e)

/-!
Concrete fixtures for counterexamples and witnesses.
-/

/-- A representative inventory device without a `secret` field. -/
def devA : Device :=
  { host := "core-sw-1", username := "admin", password := "cisco123",
    device_type := some "cisco_ios", secret := none }

/-- A session on which every capability call succeeds. -/
def okSession : SessionBehavior :=
  { openCall := .ok (),
    get_facts := .ok [("hostname", "core-sw-1"), ("model", "C9300")],
    get_config := .ok { running := "hostname core-sw-1",
                        startup := some "hostname core-sw-1" },
    get_interfaces := .ok [("GigabitEthernet0/1", "up")],
    close := .ok () }

/-- A session where `open()` succeeds and the very next call,
`get_facts()`, raises — before any artifact write. -/
def earlyFaultSession : SessionBehavior :=
  { okSession with get_facts := .error "Connection timed out" }

/-- A session where `open()`, `get_facts()` and `get_config()` succeed
(so the running-config, startup-config and facts files get written) and
then `get_interfaces()` raises. -/
def lateFaultSession : SessionBehavior :=
  { okSession with get_interfaces := .error "RPC timeout" }

/-- A Netmiko session on which every call succeeds. -/
def okNetmiko : NetmikoSession :=
  { connect := .ok (), enable := .ok (),
    send_config_set := fun _ => .ok "config applied",
    save_config := .ok "saved",
    send_command := fun _ => .ok "Building configuration...",
    disconnect := .ok () }

/-- A Netmiko session whose `ConnectHandler` construction raises. -/
def refusedNetmiko : NetmikoSession :=
  { okNetmiko with connect := .error "Connection refused" }

/-- A sample configuration command file: a command, a blank line, a
comment line, and a command with surrounding whitespace. -/
def sampleLines : List String :=
  ["vlan 10", "", "# add the name", "  name engineering  "]

/-!
Helper lemmas shared by the claim theorems.
-/

/-- Every branch of `backup_device_config` reports the inventory host in
its result. -/
theorem backup_result_hostname (d : Device) (sess : SessionBehavior)
    (now : String) :
    (backup_device_config d sess now).result.hostname = d.host := by
  unfold backup_device_config
  cases sess.openCall <;> cases sess.get_facts <;> cases sess.get_config <;>
    cases sess.get_interfaces <;> cases sess.close <;> rfl

/-- The function `backup_device_config` returns only the two statuses
its two return dicts carry. -/
theorem backup_result_status_cases (d : Device) (sess : SessionBehavior)
    (now : String) :
    (backup_device_config d sess now).result.status = "success" ∨
    (backup_device_config d sess now).result.status = "failed" := by
  unfold backup_device_config
  cases sess.openCall <;> cases sess.get_facts <;> cases sess.get_config <;>
    cases sess.get_interfaces <;> cases sess.close <;>
    first
      | exact Or.inl rfl
      | exact Or.inr rfl

/-- If `backup_configuration` returns `None`, its `except` clause ran
(and logged the failure). -/
theorem backup_configuration_none_logged (d : Device)
    (sess : NetmikoSession) (now : String)
    (h : (backup_configuration d sess now).ret = none) :
    (backup_configuration d sess now).errorLogged = true := by
  unfold backup_configuration at h ⊢
  cases hc : sess.connect <;> cases he : sess.enable <;>
    cases hs : sess.send_command "show running-config" <;>
    cases hd : sess.disconnect <;> simp_all

/-- Every file `backup_device_config` ever writes has the run's
timestamp token in its name: all five filename templates of
lines 105–127 interpolate the `timestamp` computed at line 99. -/
theorem backup_written_has_timestamp (d : Device) (sess : SessionBehavior)
    (now : String) :
    ∀ f ∈ (backup_device_config d sess now).written, hasTimestamp now f := by
  intro f hf
  unfold backup_device_config at hf
  cases ho : sess.openCall <;> rw [ho] at hf
  case error => simp at hf
  case ok =>
  cases hfa : sess.get_facts <;> rw [hfa] at hf
  case error => simp at hf
  case ok =>
  cases hg : sess.get_config <;> rw [hg] at hf
  case error => simp at hf
  case ok config =>
  rcases config with ⟨running, startup⟩
  cases hi : sess.get_interfaces <;> rw [hi] at hf
  case error =>
    rcases startup with _ | s
    · simp at hf
      rcases hf with rfl | rfl <;> exact ⟨_, _, rfl⟩
    · by_cases hs : s = "" <;> simp [hs] at hf
      · rcases hf with rfl | rfl <;> exact ⟨_, _, rfl⟩
      · rcases hf with rfl | rfl | rfl <;> exact ⟨_, _, rfl⟩
  case ok =>
  cases hc : sess.close <;> rw [hc] at hf <;>
  · rcases startup with _ | s
    · simp at hf
      rcases hf with rfl | rfl | rfl <;> exact ⟨_, _, rfl⟩
    · by_cases hs : s = "" <;> simp [hs] at hf
      · rcases hf with rfl | rfl | rfl <;> exact ⟨_, _, rfl⟩
      · rcases hf with rfl | rfl | rfl | rfl <;> exact ⟨_, _, rfl⟩

/-!
Claim theorems.
-/

/-- C2: the claim says every session `backup_device_config` opens is
closed on every exit path, including the path taken when an exception
is raised after `open()` succeeds.  The code has no `finally`: when
`get_facts()` raises right after a successful `open()`, the `except`
clause returns the failed dict and `close()` is never called — the
session leaks.  This theorem evaluates the code at that failing input. -/
theorem backup_session_leak_on_exception :
    (backup_device_config devA earlyFaultSession "20250101_120000").opened = true ∧
    (backup_device_config devA earlyFaultSession "20250101_120000").closeCalled = false ∧
    (backup_device_config devA earlyFaultSession "20250101_120000").result.status = "failed" :=
  ⟨rfl, rfl, rfl⟩

/-- C5: for every inventory, the backup pipeline produces exactly one
Operation Result per device, in inventory order (the result at each
position names that position's device), and this holds for *every*
assignment of session behaviors — in particular when any device's
session calls raise, so one device's failure never aborts the rest. -/
theorem backup_results_one_per_device_in_order (devices : List Device)
    (sess : Device → SessionBehavior) (clock : Device → String) :
    (runBackupPipeline devices sess clock).map (fun r => r.hostname)
      = devices.map (fun d => d.host) ∧
    (runBackupPipeline devices sess clock).length = devices.length := by
  constructor
  · simp [runBackupPipeline, backup_result_hostname]
  · simp [runBackupPipeline]

/-- C6: the driver resolver is a pure static lookup — every tag listed
in `driver_map` resolves to its listed driver, a missing `device_type`
resolves to the default `"ios"` (via the `'cisco_ios'` default tag),
and every tag outside the table resolves to `"ios"` rather than
failing. -/
theorem driver_resolution_table_and_default :
    (∀ p ∈ driver_map, resolveDriver (some p.1) = p.2) ∧
    resolveDriver none = "ios" ∧
    (∀ t : String, driver_map.lookup t = none → resolveDriver (some t) = "ios") := by
  refine ⟨by decide, rfl, ?_⟩
  intro t h
  simp [resolveDriver, h]

/-- Witness for C6: a listed tag (`cisco_nxos`) and an unlisted tag
(`mikrotik_routeros`) at concrete inputs. -/
theorem driver_resolution_table_and_default_witness :
    (("cisco_nxos", "nxos") ∈ driver_map ∧
      resolveDriver (some "cisco_nxos") = "nxos") ∧
    (driver_map.lookup "mikrotik_routeros" = none ∧
      resolveDriver (some "mikrotik_routeros") = "ios") :=
  ⟨⟨by decide,
    driver_resolution_table_and_default.1 ("cisco_nxos", "nxos") (by decide)⟩,
   ⟨by decide,
    driver_resolution_table_and_default.2.2 "mikrotik_routeros" (by decide)⟩⟩

/-- C8: whenever the pre-change backup fails (returns `None`), the
failure was logged by the `except` clause, the device's result records
`backup := none`, and the configuration push is still attempted — the
push outcome and its `send_config_set` trace are exactly those of
`configure_device`, unaffected by the backup failure. -/
theorem push_attempted_despite_backup_failure (d : Device)
    (bsess csess : NetmikoSession) (commands : List String) (now : String)
    (h : (backup_configuration d bsess now).ret = none) :
    (backup_configuration d bsess now).errorLogged = true ∧
    (processDevice d bsess csess commands now).result.backup = none ∧
    (processDevice d bsess csess commands now).result.status
      = (configure_device d csess commands).status ∧
    (processDevice d bsess csess commands now).configSetCalls
      = (configure_device d csess commands).configSetCalls := by
  refine ⟨backup_configuration_none_logged d bsess now h, ?_, rfl, rfl⟩
  simpa [processDevice] using h

/-- Witness for C8: a device whose backup session's `ConnectHandler`
raises `Connection refused` while the push session succeeds. -/
theorem push_attempted_despite_backup_failure_witness :
    (backup_configuration devA refusedNetmiko "20250101_120000").ret = none ∧
    ((backup_configuration devA refusedNetmiko "20250101_120000").errorLogged = true ∧
     (processDevice devA refusedNetmiko okNetmiko ["vlan 10"] "20250101_120000").result.backup = none ∧
     (processDevice devA refusedNetmiko okNetmiko ["vlan 10"] "20250101_120000").result.status
       = (configure_device devA okNetmiko ["vlan 10"]).status ∧
     (processDevice devA refusedNetmiko okNetmiko ["vlan 10"] "20250101_120000").configSetCalls
       = (configure_device devA okNetmiko ["vlan 10"]).configSetCalls) :=
  ⟨rfl, push_attempted_despite_backup_failure devA refusedNetmiko okNetmiko
    ["vlan 10"] "20250101_120000" rfl⟩

/-- C10: when a device record has no `secret` field, the connection is
constructed with the enable secret equal to the device's password
(`device.get('secret', device['password'])`). -/
theorem secret_defaults_to_password (d : Device) (h : d.secret = none) :
    (mkConnArgs d).secret = d.password := by
  simp [mkConnArgs, h]

/-- Witness for C10: the fixture device, which has no `secret` field. -/
theorem secret_defaults_to_password_witness :
    devA.secret = none ∧ (mkConnArgs devA).secret = devA.password :=
  ⟨rfl, secret_defaults_to_password devA rfl⟩

/-- C1 counterexample: the claim says a session-capability raise
between open and close leaves *no* artifact files for that run's
timestamp.  But the source writes the running-config, startup-config
and facts files (lines 105–121) *before* calling `get_interfaces()`
(line 126): when `get_interfaces()` raises, the result is `failed` yet
three artifact files for this timestamp already exist. -/
theorem backup_failure_leaves_artifacts_cex :
    (backup_device_config devA lateFaultSession "20250101_120000").result.status = "failed" ∧
    (backup_device_config devA lateFaultSession "20250101_120000").result.error = some "RPC timeout" ∧
    (backup_device_config devA lateFaultSession "20250101_120000").written =
      ["backups/core-sw-1/core-sw-1_running_20250101_120000.cfg",
       "backups/core-sw-1/core-sw-1_startup_20250101_120000.cfg",
       "backups/core-sw-1/core-sw-1_facts_20250101_120000.json"] ∧
    (backup_device_config devA lateFaultSession "20250101_120000").written ≠ [] := by
  refine ⟨rfl, rfl, by decide, by decide⟩

/-- C1 amended: when the raising call comes *before the first artifact
write* — that is, `open()`, `get_facts()` or `get_config()` raises —
the result is `failed`, its error detail is exactly the raised
exception's message, and no artifact file is written; a later raise
(`get_interfaces()`/`close()`) instead leaves the files already
written. -/
theorem backup_early_failure_no_artifacts (d : Device)
    (sess : SessionBehavior) (now e : String)
    (h : raisesBeforeWrite sess e) :
    (backup_device_config d sess now).result.status = "failed" ∧
    (backup_device_config d sess now).result.error = some e ∧
    (backup_device_config d sess now).written = [] := by
  rcases h with h1 | ⟨h1, h2⟩ | ⟨h1, ⟨facts, h2⟩, h3⟩
  · refine ⟨?_, ?_, ?_⟩ <;> simp [backup_device_config, h1, failedResult]
  · refine ⟨?_, ?_, ?_⟩ <;> simp [backup_device_config, h1, h2, failedResult]
  · refine ⟨?_, ?_, ?_⟩ <;> simp [backup_device_config, h1, h2, h3, failedResult]

/-- Witness for C1 (amended): `get_facts()` raises right after a
successful `open()`; the device fails with that error and no file is
written. -/
theorem backup_early_failure_no_artifacts_witness :
    raisesBeforeWrite earlyFaultSession "Connection timed out" ∧
    ((backup_device_config devA earlyFaultSession "20250101_130000").result.status = "failed" ∧
     (backup_device_config devA earlyFaultSession "20250101_130000").result.error = some "Connection timed out" ∧
     (backup_device_config devA earlyFaultSession "20250101_130000").written = []) :=
  ⟨Or.inr (Or.inl ⟨rfl, rfl⟩),
   backup_early_failure_no_artifacts devA earlyFaultSession "20250101_130000"
     "Connection timed out" (Or.inr (Or.inl ⟨rfl, rfl⟩))⟩

/-- C3 counterexample: the claim says the kept lines are passed
*verbatim* (character for character).  The comprehension at line 60
applies `line.strip()` to every kept line, so a command with
surrounding whitespace is passed stripped, not verbatim:
`load_configuration` on the one-line file `"  interface Gi0/1  "`
yields `["interface Gi0/1"]`, and that stripped list — not the verbatim
one — is what the single `send_config_set` call receives. -/
theorem config_commands_not_verbatim_cex :
    load_configuration (some ["  interface Gi0/1  "]) = ["interface Gi0/1"] ∧
    load_configuration (some ["  interface Gi0/1  "]) ≠
      specVerbatimCommands ["  interface Gi0/1  "] ∧
    (configure_device devA okNetmiko
        (load_configuration (some ["  interface Gi0/1  "]))).configSetCalls ≠
      [specVerbatimCommands ["  interface Gi0/1  "]] := by
  refine ⟨by decide, by decide, by decide⟩

/-- C3 amended: whenever connect and `enable()` succeed, the device
receives exactly one `send_config_set` call, and its command list is
exactly the file's kept lines (stripped form non-blank, raw line not
starting with `'#'`), each *stripped* of surrounding whitespace, in
original file order. -/
theorem config_commands_stripped_single_call (lines : List String)
    (d : Device) (sess : NetmikoSession)
    (hc : sess.connect = .ok ()) (he : sess.enable = .ok ()) :
    (configure_device d sess (load_configuration (some lines))).configSetCalls
      = [(specVerbatimCommands lines).map pyStrip] := by
  have hload : load_configuration (some lines)
      = (specVerbatimCommands lines).map pyStrip := rfl
  rw [← hload]
  cases hs : sess.send_config_set (load_configuration (some lines)) <;>
    cases hsv : sess.save_config <;>
    cases hd : sess.disconnect <;>
    simp [configure_device, hc, he, hs, hsv, hd]

/-- Witness for C3 (amended): the sample file loads to the stripped
kept lines `["vlan 10", "name engineering"]` and that exact list is the
argument of the one `send_config_set` call. -/
theorem config_commands_stripped_single_call_witness :
    okNetmiko.connect = .ok () ∧ okNetmiko.enable = .ok () ∧
    (configure_device devA okNetmiko
        (load_configuration (some sampleLines))).configSetCalls
      = [(specVerbatimCommands sampleLines).map pyStrip] ∧
    (specVerbatimCommands sampleLines).map pyStrip
      = ["vlan 10", "name engineering"] :=
  ⟨rfl, rfl,
   config_commands_stripped_single_call sampleLines devA okNetmiko rfl rfl,
   by decide⟩

/-- C4 counterexample: the claim says any confirmation other than the
exact token `'yes'` touches no device.  The gate at line 173 compares
`confirm.lower() != 'yes'`, so the input `"YES"` — which is not the
exact token — passes the gate: with one device and one command, one
device is processed and two `ConnectHandler` sessions are opened. -/
theorem confirmation_gate_case_insensitive_cex :
    (netmikoMain [devA] (some ["vlan 10"]) "YES"
        (fun _ => okNetmiko) (fun _ => okNetmiko)
        (fun _ => "20250101_120000")).sessionsOpened = 2 ∧
    (netmikoMain [devA] (some ["vlan 10"]) "YES"
        (fun _ => okNetmiko) (fun _ => okNetmiko)
        (fun _ => "20250101_120000")).results.length = 1 :=
  ⟨rfl, rfl⟩

/-- C4 amended: for every confirmation input whose *lowercased* form is
not `"yes"`, the config-push pipeline builds an empty result list and
opens zero device sessions. -/
theorem confirmation_gate_aborts (devices : List Device)
    (cfgLines : Option (List String)) (confirm : String)
    (bsess csess : Device → NetmikoSession) (clock : Device → String)
    (h : pyLower confirm ≠ "yes") :
    (netmikoMain devices cfgLines confirm bsess csess clock).results = [] ∧
    (netmikoMain devices cfgLines confirm bsess csess clock).sessionsOpened = 0 := by
  by_cases hempty : (load_configuration cfgLines).isEmpty
  · simp [netmikoMain, hempty]
  · simp [netmikoMain, hempty, h]

/-- Witness for C4 (amended): the input `"no"` aborts the run. -/
theorem confirmation_gate_aborts_witness :
    (pyLower "no" ≠ "yes") ∧
    ((netmikoMain [devA] (some ["vlan 10"]) "no"
        (fun _ => okNetmiko) (fun _ => okNetmiko)
        (fun _ => "20250101_120000")).results = [] ∧
     (netmikoMain [devA] (some ["vlan 10"]) "no"
        (fun _ => okNetmiko) (fun _ => okNetmiko)
        (fun _ => "20250101_120000")).sessionsOpened = 0) :=
  ⟨by decide,
   confirmation_gate_aborts [devA] (some ["vlan 10"]) "no"
     (fun _ => okNetmiko) (fun _ => okNetmiko)
     (fun _ => "20250101_120000") (by decide)⟩

/-- C7: for every successful device backup, every artifact file written
in that run carries the run's timestamp token (the `timestamp` computed
once at line 99) in its filename. -/
theorem success_artifacts_share_timestamp (d : Device)
    (sess : SessionBehavior) (now : String)
    (_h : (backup_device_config d sess now).result.status = "success") :
    ∀ f ∈ (backup_device_config d sess now).written, hasTimestamp now f :=
  fun f hf => backup_written_has_timestamp d sess now f hf

/-- Witness for C7: an all-success session; all four files carry the
timestamp. -/
theorem success_artifacts_share_timestamp_witness :
    (backup_device_config devA okSession "20250101_140000").result.status = "success" ∧
    (∀ f ∈ (backup_device_config devA okSession "20250101_140000").written,
      hasTimestamp "20250101_140000" f) :=
  ⟨rfl, success_artifacts_share_timestamp devA okSession "20250101_140000" rfl⟩

/-- C9: for every backup-pipeline run, the exit status computed by
`main` is `0` exactly when every device's result has status
`'success'`, and `1` exactly when at least one device's result has
status `'failed'`. -/
theorem backup_exit_code_reflects_failures (devices : List Device)
    (sess : Device → SessionBehavior) (clock : Device → String) :
    (summaryExitCode (runBackupPipeline devices sess clock) = 0 ↔
      ∀ r ∈ runBackupPipeline devices sess clock, r.status = "success") ∧
    (summaryExitCode (runBackupPipeline devices sess clock) = 1 ↔
      ∃ r ∈ runBackupPipeline devices sess clock, r.status = "failed") := by
  set rs := runBackupPipeline devices sess clock with hrs
  have hdich : ∀ r ∈ rs, r.status = "success" ∨ r.status = "failed" := by
    intro r hr
    rw [hrs] at hr
    simp only [runBackupPipeline, List.mem_map] at hr
    obtain ⟨d, _, rfl⟩ := hr
    exact backup_result_status_cases d (sess d) (clock d)
  have hzero : summaryExitCode rs = 0 ↔ ∀ r ∈ rs, r.status = "success" := by
    constructor
    · intro h
      by_cases hcond :
          rs.length - (rs.filter (fun r => r.status == "success")).length = 0
      · have hle := List.length_filter_le (fun r => r.status == "success") rs
        have hge : rs.length ≤ (rs.filter (fun r => r.status == "success")).length :=
          Nat.le_of_sub_eq_zero hcond
        have heq : rs.filter (fun r => r.status == "success") = rs :=
          (List.filter_sublist rs).eq_of_length (le_antisymm hle hge)
        intro r hr
        have hmem : r ∈ rs.filter (fun r => r.status == "success") := by
          rw [heq]; exact hr
        simpa using (List.mem_filter.mp hmem).2
      · exfalso
        simp [summaryExitCode, hcond] at h
    · intro hall
      have heq : rs.filter (fun r => r.status == "success") = rs :=
        List.filter_eq_self.mpr (by intro a ha; simpa using hall a ha)
      simp [summaryExitCode, heq]
  refine ⟨hzero, ?_, ?_⟩
  · intro h1
    have hne : ¬ ∀ r ∈ rs, r.status = "success" := by
      intro hall
      have h0 := hzero.mpr hall
      rw [h1] at h0
      exact absurd h0 (by decide)
    push_neg at hne
    obtain ⟨r, hr, hns⟩ := hne
    rcases hdich r hr with hs | hfail
    · exact absurd hs hns
    · exact ⟨r, hr, hfail⟩
  · rintro ⟨r, hr, hfail⟩
    have hne0 : summaryExitCode rs ≠ 0 := by
      rw [Ne, hzero]
      intro hall
      have hsucc := hall r hr
      rw [hfail] at hsucc
      exact absurd hsucc (by decide)
    by_cases hcond :
        rs.length - (rs.filter (fun r => r.status == "success")).length = 0
    · exact absurd (by simp [summaryExitCode, hcond]) hne0
    · simp [summaryExitCode, hcond]

end NetAuto
